import Mathlib

/-
  Verification development for the pressly/lg request-logging middleware.

  The Go sources (middleware.go and the example program) are shallowly
  embedded below.  Pure helpers become Lean functions; the per-request
  entry (a Go pointer mutated in place) is threaded explicitly; the
  context chain is an association list of key/value pairs, exactly as
  Go's context.WithValue builds a chain that ctx.Value walks.
-/

set_option autoImplicit false

namespace Lg

/-- Structured field values carried by logrus fields (model of the Go
interface value stored in a logrus.Fields map). Fractional-millisecond
durations are modelled as rationals. -/
inductive FVal where
  | natV (n : Nat)
  | strV (s : String)
  | boolV (b : Bool)
  | ratV (q : ℚ)
deriving DecidableEq

/-- Lookup in an accumulated field set. The newest binding for a key wins,
matching logrus map-merge semantics (later WithField overrides earlier). -/
def getField : List (String × FVal) → String → Option FVal
  | [], _ => none
  | (k, v) :: rest, key => if k = key then some v else getField rest key

/-- Model of logrus Entry.WithField: the new binding shadows any older
binding of the same key (lookup takes the newest, as a map overwrite). -/
def setField (fs : List (String × FVal)) (key : String) (v : FVal) :
    List (String × FVal) :=
  (key, v) :: fs

/-- Model of logrus Entry.WithFields: merge a whole map of bindings. -/
def setFields (fs : List (String × FVal)) (new : List (String × FVal)) :
    List (String × FVal) :=
  new.foldl (fun acc p => setField acc p.1 p.2) fs

/-- Logrus severity values: PanicLevel iota order in Sirupsen/logrus. -/
def panicLevel : Nat := 0

/-- Logrus FatalLevel. -/
def fatalLevel : Nat := 1

/-- Logrus ErrorLevel. -/
def errorLevel : Nat := 2

/-- Logrus WarnLevel. -/
def warnLevel : Nat := 3

/-- Logrus InfoLevel. -/
def infoLevel : Nat := 4

/-- Logrus DebugLevel. -/
def debugLevel : Nat := 5

/-- The logrus println-family emit operations the Write dispatch can call. -/
inductive EmitOp where
  | debugLn
  | infoLn
  | warnLn
  | errorLn
  | fatalLn
  | panicLn
deriving DecidableEq

/-- Severity of the line each emit operation writes. -/
def opLevel : EmitOp → Nat
  | .debugLn => debugLevel
  | .infoLn => infoLevel
  | .warnLn => warnLevel
  | .errorLn => errorLevel
  | .fatalLn => fatalLevel
  | .panicLn => panicLevel

/-- Whether the sink operation terminates the surrounding process: logrus
Fatalln calls os.Exit after logging and Panicln raises a runtime panic,
while the Debug/Info/Warn/Error printers return normally. -/
def opTerminates : EmitOp → Bool
  | .fatalLn => true
  | .panicLn => true
  | _ => false

/-- A log line written to the backing sink. -/
structure LogLine where
  level : Nat
  msg : String
  fields : List (String × FVal)
deriving DecidableEq

/-- Model of HTTPLoggerEntry: the accumulated field set of its logrus
FieldLogger, and the optional pending completion level. -/
structure HTTPLoggerEntry where
  loggerFields : List (String × FVal)
  level : Option Nat
deriving DecidableEq

/-- The level dispatch of HTTPLoggerEntry.Write, clause for clause from the
Go switch: nil level means Infoln; the six enumerated levels map to their
printers except PanicLevel, which is demoted to Errorln; any other level
value falls through the switch (no default branch), emitting nothing. -/
def writeDispatch : Option Nat → Option EmitOp
  | none => some EmitOp.infoLn
  | some l =>
    if l = debugLevel then some EmitOp.debugLn
    else if l = infoLevel then some EmitOp.infoLn
    else if l = warnLevel then some EmitOp.warnLn
    else if l = errorLevel then some EmitOp.errorLn
    else if l = fatalLevel then some EmitOp.fatalLn
    else if l = panicLevel then some EmitOp.errorLn
    else none

/-- The response fields Write merges before emitting: res_code, res_bytes
and res_ms (elapsed nanoseconds divided by 1e6, i.e. fractional
milliseconds; the float64 division is modelled as exact rational
division). -/
def writeFields (fs : List (String × FVal)) (status bytes elapsedNs : Nat) :
    List (String × FVal) :=
  setFields fs
    [("res_code", .natV status), ("res_bytes", .natV bytes),
     ("res_ms", .ratV ((elapsedNs : ℚ) / 1000000))]

/-- HTTPLoggerEntry.Write: merge the response fields, then emit one
"completed" line through the level dispatch (none when the dispatch has no
matching branch). -/
def HTTPLoggerEntry.Write (l : HTTPLoggerEntry)
    (status bytes elapsedNs : Nat) : Option LogLine :=
  (writeDispatch l.level).map fun op =>
    { level := opLevel op, msg := "completed",
      fields := writeFields l.loggerFields status bytes elapsedNs }

/-- HTTPLoggerEntry.Panic: merge the stack and panic-value fields and set
the pending level to PanicLevel. No line is emitted here. -/
def HTTPLoggerEntry.Panic (l : HTTPLoggerEntry) (recVal stack : String) :
    HTTPLoggerEntry :=
  { loggerFields :=
      setFields l.loggerFields [("stack", .strV stack), ("panic", .strV recVal)],
    level := some panicLevel }

/-- Context keys: lg's own LoggerCtxKey and LogEntryCtxKey, the distinct
LogEntryCtxKey exported by the chi middleware package (a different pointer,
hence a different key), and arbitrary foreign keys. -/
inductive CtxKey where
  | loggerKey
  | logEntryKey
  | chiLogEntryKey
  | otherKey (n : Nat)
deriving DecidableEq

/-- Context values: the process-wide *logrus.Logger, a pointer to the
request's *HTTPLoggerEntry (there is exactly one per request, threaded
through the execution), or some unrelated value. -/
inductive CtxVal where
  | loggerV
  | entryV
  | otherV (n : Nat)
deriving DecidableEq

/-- A Go context chain: context.WithValue prepends a binding and
ctx.Value walks the chain to the first binding of the key. -/
abbrev Context := List (CtxKey × CtxVal)

/-- Model of ctx.Value: first binding of the key in the chain. -/
def ctxValue : Context → CtxKey → Option CtxVal
  | [], _ => none
  | (k, v) :: rest, key => if k = key then some v else ctxValue rest key

/-- WithLoggerContext: derive a context carrying the fallback logger under
lg's LoggerCtxKey. -/
def WithLoggerContext (parent : Context) : Context :=
  (.loggerKey, .loggerV) :: parent

/-- WithLogEntry: derive a context carrying the request's log entry under
lg's own LogEntryCtxKey. -/
def WithLogEntry (parent : Context) : Context :=
  (.logEntryKey, .entryV) :: parent

/-- The lookup expression shared by Log, SetLogField and SetLogFields:
ctx.Value(middleware.LogEntryCtxKey).(*HTTPLoggerEntry) - note it reads the
chi middleware package's key, and the type assertion succeeds only when the
stored value is an *HTTPLoggerEntry. -/
def entryFromContext (ctx : Context) : Option Unit :=
  match ctxValue ctx .chiLogEntryKey with
  | some .entryV => some ()
  | _ => none

/-- SetLogField: if the chi-key lookup finds the request's entry, replace
its field logger with one extended by the new field; otherwise a silent
no-op. The entry being mutated is the per-request entry threaded through
the execution. -/
def SetLogField (ctx : Context) (e : HTTPLoggerEntry) (key : String)
    (v : FVal) : HTTPLoggerEntry :=
  match entryFromContext ctx with
  | some _ => { e with loggerFields := setField e.loggerFields key v }
  | none => e

/-- What Log resolves to: the entry's field logger or the fallback
process-wide logger. -/
inductive Resolved where
  | fromEntry
  | fromBase
deriving DecidableEq

/-- Log: return the entry's logger when the chi-key lookup finds one;
otherwise the fallback logger stored under lg's LoggerCtxKey; otherwise
panic (modelled as none). -/
def Log (ctx : Context) : Option Resolved :=
  match entryFromContext ctx with
  | some _ => some .fromEntry
  | none =>
    match ctxValue ctx .loggerKey with
    | some .loggerV => some .fromBase
    | _ => none

/-- Inbound request metadata consumed by NewLogEntry. GetReqID returns the
empty string when no request id is present upstream. -/
structure Request where
  reqID : String
  method : String
  remoteAddr : String
  userAgent : String
  uriPath : String

/-- The fixed fields NewLogEntry derives from the request: req_id when
present, then method, ip, ua, uri. -/
def baseFields (r : Request) : List (String × FVal) :=
  let fs0 : List (String × FVal) := []
  let fs1 := if r.reqID = "" then fs0 else setField fs0 "req_id" (.strV r.reqID)
  let fs2 := setField fs1 "method" (.strV r.method)
  let fs3 := setField fs2 "ip" (.strV r.remoteAddr)
  let fs4 := setField fs3 "ua" (.strV r.userAgent)
  setField fs4 "uri" (.strV r.uriPath)

/-- The entry NewLogEntry builds: base fields installed, no pending level. -/
def initialEntry (r : Request) : HTTPLoggerEntry :=
  { loggerFields := baseFields r, level := none }

/-- HTTPLogger configuration relevant to the model. -/
structure HTTPLogger where
  WriteRequestStartedLine : Bool

/-- The "request started" line NewLogEntry writes with Infoln over the
entry's base fields. -/
def startedLine (r : Request) : LogLine :=
  { level := infoLevel, msg := "request started", fields := baseFields r }

/-- A trace event: a log line written to the sink, or an occurrence of a
SetLogField call made by downstream code. -/
inductive Event where
  | line (l : LogLine)
  | mutation (key : String) (v : FVal)
deriving DecidableEq

/-- HTTPLogger.NewLogEntry: build the entry and, when configured, write
the started line immediately. -/
def HTTPLogger.NewLogEntry (l : HTTPLogger) (r : Request) :
    HTTPLoggerEntry × List Event :=
  (initialEntry r,
    if l.WriteRequestStartedLine then [Event.line (startedLine r)] else [])

/-- The wrapped response writer (model of chi's WrapResponseWriter, the
response-observation wrapper of the spec): it records the first status
written and the total byte count, and the net/http sink below it ignores
any later, superfluous WriteHeader. -/
structure WWriter where
  status : Option Nat
  bytesWritten : Nat
deriving DecidableEq

/-- Writer state before the downstream handler runs. -/
def initialWriter : WWriter :=
  { status := none, bytesWritten := 0 }

/-- WriteHeader on the wrapper: only the first status takes effect. -/
def wwWriteHeader (w : WWriter) (code : Nat) : WWriter :=
  if w.status.isSome then w else { w with status := some code }

/-- Write on the wrapper: an implicit WriteHeader(200) when no status was
written yet, then the bytes are counted. -/
def wwWrite (w : WWriter) (n : Nat) : WWriter :=
  { status := some (w.status.getD 200), bytesWritten := w.bytesWritten + n }

/-- ww.Status(): the recorded status code, 0 when nothing was written. -/
def wwStatus (w : WWriter) : Nat := w.status.getD 0

/-- http.StatusText(http.StatusInternalServerError). -/
def statusText500 : String := "Internal Server Error"

/-- Model of http.Error(w, text, code): WriteHeader(code) then the text
plus a trailing newline as the body. -/
def httpError (w : WWriter) (text : String) (code : Nat) : WWriter :=
  wwWrite (wwWriteHeader w code) (text.length + 1)

/-- The actions a downstream middleware or handler can perform that the
claims observe: enrich the entry through the field-mutation API, or write
to the response. -/
inductive HAction where
  | setLogFieldAct (key : String) (v : FVal)
  | writeHeaderAct (code : Nat)
  | writeAct (n : Nat)
deriving DecidableEq

/-- A downstream handler: the actions it performs in order, then either a
normal return or a runtime panic carrying a value. -/
structure Handler where
  actions : List HAction
  panics : Option String

/-- Run the handler's actions against the request context, the per-request
entry and the wrapped writer, collecting a mutation event for every
SetLogField call. -/
def execActions (ctx : Context) :
    HTTPLoggerEntry → WWriter → List HAction →
    HTTPLoggerEntry × WWriter × List Event
  | e, w, [] => (e, w, [])
  | e, w, HAction.setLogFieldAct k v :: rest =>
    let r := execActions ctx (SetLogField ctx e k v) w rest
    (r.1, r.2.1, Event.mutation k v :: r.2.2)
  | e, w, HAction.writeHeaderAct c :: rest =>
    execActions ctx e (wwWriteHeader w c) rest
  | e, w, HAction.writeAct n :: rest =>
    execActions ctx e (wwWrite w n) rest

/-- The mutation events a list of handler actions gives rise to. -/
def mutationEvents (acts : List HAction) : List Event :=
  acts.filterMap fun a =>
    match a with
    | HAction.setLogFieldAct k v => some (Event.mutation k v)
    | _ => none

/-- Middleware configuration, as in the Go RequestLoggerConfig. -/
structure RequestLoggerConfig where
  WriteRequestStartedLine : Bool

/-- Observable outcome of one request through the middleware: the ordered
trace of sink lines and mutation calls, the final wrapped-writer state
delivered to the client, the entry state at the moment Write runs, and
whether a panic escaped the middleware. -/
structure MWResult where
  trace : List Event
  writer : WWriter
  entryAtWrite : HTTPLoggerEntry
  propagated : Bool

/-- The handler phase of the middleware: downstream runs with the context
derived by WithLogEntry, the fresh entry and the fresh wrapper. -/
def handlerRun (baseCtx : Context) (req : Request) (h : Handler) :
    HTTPLoggerEntry × WWriter × List Event :=
  execActions (WithLogEntry baseCtx) (initialEntry req) initialWriter h.actions

/-- The sink events produced by one Write call. -/
def lineEventsOf : Option LogLine → List Event
  | some c => [Event.line c]
  | none => []

/-- RequestLoggerWithConfig, one request end to end: build the entry
(writing the started line when configured), run the handler on the derived
context and wrapped writer, and in the deferred block recover any panic
(recording it and writing the generic 500 error), then call Write exactly
once with the observed status, byte count and elapsed time. The recover
swallows the panic, so nothing propagates. -/
def RequestLoggerWithConfig (config : RequestLoggerConfig)
    (baseCtx : Context) (req : Request) (h : Handler) (stack : String)
    (elapsedNs : Nat) : MWResult :=
  let httpLogger : HTTPLogger :=
    { WriteRequestStartedLine := config.WriteRequestStartedLine }
  let startEvents := (httpLogger.NewLogEntry req).2
  let run := handlerRun baseCtx req h
  match h.panics with
  | some recVal =>
    let entry2 := run.1.Panic recVal stack
    let ww2 := httpError run.2.1 statusText500 500
    let lineEvents :=
      lineEventsOf (entry2.Write (wwStatus ww2) ww2.bytesWritten elapsedNs)
    { trace := startEvents ++ run.2.2 ++ lineEvents,
      writer := ww2, entryAtWrite := entry2, propagated := false }
  | none =>
    let lineEvents :=
      lineEventsOf (run.1.Write (wwStatus run.2.1) run.2.1.bytesWritten elapsedNs)
    { trace := startEvents ++ run.2.2 ++ lineEvents,
      writer := run.2.1, entryAtWrite := run.1, propagated := false }

/-- Observable outcome of one request through PrintPanics. -/
structure PPResult where
  writer : WWriter
  stdout : List String
  propagated : Bool
deriving DecidableEq

/-- PrintPanics: run the handler, recover any panic and print the panic
value and the stack to stdout; nothing is written to the response and
nothing is re-raised. -/
def PrintPanics (ctx : Context) (e : HTTPLoggerEntry) (w : WWriter)
    (h : Handler) (stack : String) : PPResult :=
  let run := execActions ctx e w h.actions
  match h.panics with
  | some recVal =>
    { writer := run.2.1,
      stdout := ["\nPANIC: " ++ recVal ++ "\n", stack ++ "\n"],
      propagated := false }
  | none =>
    { writer := run.2.1, stdout := [], propagated := false }

/-- State of the Counter middleware's shared variable and of each
concurrently handled request: per task, program counter 0 is the statement
atomic.AddUint64 of the counter variable, 1 is the separate, non-atomic
read of the variable whose value is passed to SetLogField, 2 is done. -/
structure CounterState where
  counter : Nat
  pcs : List Nat
  attached : List (Option Nat)
deriving DecidableEq

/-- One scheduler step: run the next statement of task t. -/
def counterStep (s : CounterState) (t : Nat) : CounterState :=
  match s.pcs.get? t with
  | some 0 =>
    { s with counter := s.counter + 1, pcs := s.pcs.set t 1 }
  | some 1 =>
    { s with pcs := s.pcs.set t 2,
             attached := s.attached.set t (some s.counter) }
  | _ => s

/-- Run a schedule: an arbitrary interleaving of the concurrent requests. -/
def counterRun (s : CounterState) (sched : List Nat) : CounterState :=
  sched.foldl counterStep s

/-- Initial state for n concurrent requests. -/
def counterInit (n : Nat) : CounterState :=
  { counter := 0, pcs := List.replicate n 0,
    attached := List.replicate n none }

/-- The log line carried by an event, when it is one. -/
def Event.lineOf : Event → Option LogLine
  | .line l => some l
  | .mutation _ _ => none

/-- The sink lines of a trace, in order. -/
def linesOf (tr : List Event) : List LogLine :=
  tr.filterMap Event.lineOf

/-- The completion lines of a trace. -/
def completedLines (tr : List Event) : List LogLine :=
  (linesOf tr).filter fun l => l.msg == "completed"

/-- How many lines with a given message a trace contains. -/
def msgCount (tr : List Event) (m : String) : Nat :=
  ((linesOf tr).filter fun l => l.msg == m).length

/-- The started-line events the middleware writes before downstream runs. -/
def startedEvents (config : RequestLoggerConfig) (req : Request) :
    List Event :=
  if config.WriteRequestStartedLine then [Event.line (startedLine req)] else []

/-- The wrapped-writer state at the moment the handler returns. -/
def handlerWriter (baseCtx : Context) (req : Request) (h : Handler) :
    WWriter :=
  (handlerRun baseCtx req h).2.1

/-- The single completion line the middleware writes for a request. -/
def completedLineOf (baseCtx : Context) (req : Request) (h : Handler)
    (stack : String) (elapsedNs : Nat) : LogLine :=
  match h.panics with
  | some recVal =>
    let e2 := (handlerRun baseCtx req h).1.Panic recVal stack
    let w2 := httpError (handlerWriter baseCtx req h) statusText500 500
    { level := errorLevel, msg := "completed",
      fields := writeFields e2.loggerFields (wwStatus w2) w2.bytesWritten elapsedNs }
  | none =>
    { level := infoLevel, msg := "completed",
      fields := writeFields (handlerRun baseCtx req h).1.loggerFields
        (wwStatus (handlerWriter baseCtx req h))
        (handlerWriter baseCtx req h).bytesWritten elapsedNs }

theorem writeDispatch_none : writeDispatch none = some EmitOp.infoLn := rfl

theorem writeDispatch_panic :
    writeDispatch (some panicLevel) = some EmitOp.errorLn := rfl

theorem SetLogField_level (ctx : Context) (e : HTTPLoggerEntry)
    (key : String) (v : FVal) : (SetLogField ctx e key v).level = e.level := by
  unfold SetLogField
  cases entryFromContext ctx <;> rfl

theorem execActions_level (ctx : Context) (acts : List HAction) :
    ∀ (e : HTTPLoggerEntry) (w : WWriter),
      (execActions ctx e w acts).1.level = e.level := by
  induction acts with
  | nil => intro e w; rfl
  | cons a rest ih =>
    intro e w
    cases a with
    | setLogFieldAct k v =>
      show (execActions ctx (SetLogField ctx e k v) w rest).1.level = e.level
      rw [ih (SetLogField ctx e k v) w, SetLogField_level]
    | writeHeaderAct c => exact ih e (wwWriteHeader w c)
    | writeAct n => exact ih e (wwWrite w n)

theorem execActions_events (ctx : Context) (acts : List HAction) :
    ∀ (e : HTTPLoggerEntry) (w : WWriter),
      (execActions ctx e w acts).2.2 = mutationEvents acts := by
  induction acts with
  | nil => intro e w; rfl
  | cons a rest ih =>
    intro e w
    cases a with
    | setLogFieldAct k v =>
      show Event.mutation k v :: (execActions ctx (SetLogField ctx e k v) w rest).2.2
          = mutationEvents (HAction.setLogFieldAct k v :: rest)
      rw [ih (SetLogField ctx e k v) w]
      rfl
    | writeHeaderAct c => exact ih e (wwWriteHeader w c)
    | writeAct n => exact ih e (wwWrite w n)

theorem linesOf_append (a b : List Event) :
    linesOf (a ++ b) = linesOf a ++ linesOf b := by
  simp [linesOf, List.filterMap_append]

theorem linesOf_mutationEvents (acts : List HAction) :
    linesOf (mutationEvents acts) = [] := by
  induction acts with
  | nil => rfl
  | cons a rest ih => cases a <;> exact ih

theorem handlerRun_level (baseCtx : Context) (req : Request) (h : Handler) :
    (handlerRun baseCtx req h).1.level = none :=
  execActions_level _ _ _ _

theorem handlerRun_events (baseCtx : Context) (req : Request) (h : Handler) :
    (handlerRun baseCtx req h).2.2 = mutationEvents h.actions :=
  execActions_events _ _ _ _

theorem RequestLogger_trace (config : RequestLoggerConfig)
    (baseCtx : Context) (req : Request) (h : Handler) (stack : String)
    (elapsedNs : Nat) :
    (RequestLoggerWithConfig config baseCtx req h stack elapsedNs).trace
      = startedEvents config req ++ mutationEvents h.actions
        ++ [Event.line (completedLineOf baseCtx req h stack elapsedNs)] := by
  rcases h with ⟨acts, pan⟩
  cases pan with
  | none =>
    have hw : (handlerRun baseCtx req ⟨acts, none⟩).1.Write
        (wwStatus (handlerRun baseCtx req ⟨acts, none⟩).2.1)
        (handlerRun baseCtx req ⟨acts, none⟩).2.1.bytesWritten elapsedNs
        = some (completedLineOf baseCtx req ⟨acts, none⟩ stack elapsedNs) := by
      unfold HTTPLoggerEntry.Write
      rw [handlerRun_level]
      rfl
    show startedEvents { WriteRequestStartedLine := config.WriteRequestStartedLine } req
        ++ (handlerRun baseCtx req ⟨acts, none⟩).2.2
        ++ lineEventsOf ((handlerRun baseCtx req ⟨acts, none⟩).1.Write
            (wwStatus (handlerRun baseCtx req ⟨acts, none⟩).2.1)
            (handlerRun baseCtx req ⟨acts, none⟩).2.1.bytesWritten elapsedNs)
        = _
    rw [hw, handlerRun_events]
    rfl
  | some recVal =>
    have hw : ((handlerRun baseCtx req ⟨acts, some recVal⟩).1.Panic recVal stack).Write
        (wwStatus (httpError (handlerRun baseCtx req ⟨acts, some recVal⟩).2.1 statusText500 500))
        (httpError (handlerRun baseCtx req ⟨acts, some recVal⟩).2.1 statusText500 500).bytesWritten
        elapsedNs
        = some (completedLineOf baseCtx req ⟨acts, some recVal⟩ stack elapsedNs) := by
      unfold HTTPLoggerEntry.Write
      rfl
    show startedEvents { WriteRequestStartedLine := config.WriteRequestStartedLine } req
        ++ (handlerRun baseCtx req ⟨acts, some recVal⟩).2.2
        ++ lineEventsOf (((handlerRun baseCtx req ⟨acts, some recVal⟩).1.Panic recVal stack).Write
            (wwStatus (httpError (handlerRun baseCtx req ⟨acts, some recVal⟩).2.1 statusText500 500))
            (httpError (handlerRun baseCtx req ⟨acts, some recVal⟩).2.1 statusText500 500).bytesWritten
            elapsedNs)
        = _
    rw [hw, handlerRun_events]
    rfl

theorem RequestLogger_writer (config : RequestLoggerConfig)
    (baseCtx : Context) (req : Request) (h : Handler) (stack : String)
    (elapsedNs : Nat) :
    (RequestLoggerWithConfig config baseCtx req h stack elapsedNs).writer
      = match h.panics with
        | some _ => httpError (handlerWriter baseCtx req h) statusText500 500
        | none => handlerWriter baseCtx req h := by
  rcases h with ⟨acts, pan⟩
  cases pan <;> rfl

theorem RequestLogger_entryAtWrite (config : RequestLoggerConfig)
    (baseCtx : Context) (req : Request) (h : Handler) (stack : String)
    (elapsedNs : Nat) :
    (RequestLoggerWithConfig config baseCtx req h stack elapsedNs).entryAtWrite
      = match h.panics with
        | some recVal => (handlerRun baseCtx req h).1.Panic recVal stack
        | none => (handlerRun baseCtx req h).1 := by
  rcases h with ⟨acts, pan⟩
  cases pan <;> rfl

theorem RequestLogger_propagated (config : RequestLoggerConfig)
    (baseCtx : Context) (req : Request) (h : Handler) (stack : String)
    (elapsedNs : Nat) :
    (RequestLoggerWithConfig config baseCtx req h stack elapsedNs).propagated
      = false := by
  rcases h with ⟨acts, pan⟩
  cases pan <;> rfl

theorem completedLineOf_msg (baseCtx : Context) (req : Request) (h : Handler)
    (stack : String) (elapsedNs : Nat) :
    (completedLineOf baseCtx req h stack elapsedNs).msg = "completed" := by
  rcases h with ⟨acts, pan⟩
  cases pan <;> rfl

theorem linesOf_RequestLogger (config : RequestLoggerConfig)
    (baseCtx : Context) (req : Request) (h : Handler) (stack : String)
    (elapsedNs : Nat) :
    linesOf (RequestLoggerWithConfig config baseCtx req h stack elapsedNs).trace
      = (if config.WriteRequestStartedLine then [startedLine req] else [])
        ++ [completedLineOf baseCtx req h stack elapsedNs] := by
  rw [RequestLogger_trace, linesOf_append, linesOf_append, linesOf_mutationEvents]
  rcases config with ⟨flag⟩
  cases flag <;> rfl

theorem completedLines_RequestLogger (config : RequestLoggerConfig)
    (baseCtx : Context) (req : Request) (h : Handler) (stack : String)
    (elapsedNs : Nat) :
    completedLines (RequestLoggerWithConfig config baseCtx req h stack elapsedNs).trace
      = [completedLineOf baseCtx req h stack elapsedNs] := by
  have hm := completedLineOf_msg baseCtx req h stack elapsedNs
  rw [completedLines, linesOf_RequestLogger]
  rcases config with ⟨flag⟩
  cases flag
  · simp [List.filter, hm]
  · simp [List.filter, hm, startedLine]

theorem msgCount_RequestLogger_started (config : RequestLoggerConfig)
    (baseCtx : Context) (req : Request) (h : Handler) (stack : String)
    (elapsedNs : Nat) :
    msgCount (RequestLoggerWithConfig config baseCtx req h stack elapsedNs).trace
        "request started"
      = if config.WriteRequestStartedLine then 1 else 0 := by
  have hm := completedLineOf_msg baseCtx req h stack elapsedNs
  rw [msgCount, linesOf_RequestLogger]
  rcases config with ⟨flag⟩
  cases flag
  · simp [List.filter, hm]
  · simp [List.filter, hm, startedLine]

theorem msgCount_RequestLogger_completed (config : RequestLoggerConfig)
    (baseCtx : Context) (req : Request) (h : Handler) (stack : String)
    (elapsedNs : Nat) :
    msgCount (RequestLoggerWithConfig config baseCtx req h stack elapsedNs).trace
        "completed" = 1 := by
  have hm := completedLineOf_msg baseCtx req h stack elapsedNs
  rw [msgCount, linesOf_RequestLogger]
  rcases config with ⟨flag⟩
  cases flag
  · simp [List.filter, hm]
  · simp [List.filter, hm, startedLine]

/-- Example request: GET /articles with no upstream request id. -/
def req0 : Request :=
  { reqID := "", method := "GET", remoteAddr := "1.2.3.4",
    userAgent := "cli", uriPath := "/articles" }

/-- A downstream that sets the article field through the mutation API and
then writes a 200 response with five body bytes. -/
def h1 : Handler :=
  { actions := [HAction.setLogFieldAct "article" (FVal.natV 123),
                HAction.writeHeaderAct 200, HAction.writeAct 5],
    panics := none }

/-- A downstream that writes a 200 response with five body bytes and then
panics. -/
def h5 : Handler :=
  { actions := [HAction.writeHeaderAct 200, HAction.writeAct 5],
    panics := some "boom" }

/-- A downstream that panics before writing anything. -/
def hOnlyPanic : Handler :=
  { actions := [], panics := some "boom" }

/-- C1: the claim fails on the code. A downstream SetLogField call is made
(its mutation event is in the trace), yet the field is absent from the
completion line, because SetLogField looks the entry up under the chi
middleware package's LogEntryCtxKey while WithLogEntry installed it under
lg's own LogEntryCtxKey: on the middleware's own context the mutation is a
no-op, as the last conjunct shows directly. -/
theorem c1_key_mismatch :
    Event.mutation "article" (FVal.natV 123)
        ∈ (RequestLoggerWithConfig ⟨true⟩ (WithLoggerContext []) req0 h1
            "stacktext" 0).trace
    ∧ (completedLines (RequestLoggerWithConfig ⟨true⟩ (WithLoggerContext [])
          req0 h1 "stacktext" 0).trace).map
        (fun c => getField c.fields "article") = [none]
    ∧ SetLogField (WithLogEntry (WithLoggerContext [])) (initialEntry req0)
        "article" (FVal.natV 123) = initialEntry req0 :=
  ⟨by decide, rfl, rfl⟩

/-- C2 counterexample: a handler that writes a 200 response and then
panics. Exactly one completion line is emitted, but its severity is the
error level, not the panic level, and the client's status stays 200, not
500 - refuting the claim as stated. -/
theorem c2_counterexample :
    (completedLines (RequestLoggerWithConfig ⟨true⟩ [] req0 h5
        "stacktext" 0).trace).map LogLine.level = [errorLevel]
    ∧ errorLevel ≠ panicLevel
    ∧ (RequestLoggerWithConfig ⟨true⟩ [] req0 h5 "stacktext" 0).writer.status
        = some 200 :=
  ⟨rfl, by decide, rfl⟩

/-- C2 amended: for every panicking handler, exactly one completion line is
emitted, at the elevated error severity (the recorded panic level is
deliberately demoted to the non-terminating error-level write), carrying
the non-empty stack field and the panic-value field; the panic does not
propagate; and when the handler had not yet written a response the client
receives the single generic 500 error response. -/
theorem c2_amended (config : RequestLoggerConfig) (baseCtx : Context)
    (req : Request) (h : Handler) (stack : String) (elapsedNs : Nat)
    (pv : String) (hp : h.panics = some pv) (hs : stack ≠ "") :
    ∃ c : LogLine,
      completedLines (RequestLoggerWithConfig config baseCtx req h stack
          elapsedNs).trace = [c]
      ∧ c.level = errorLevel
      ∧ getField c.fields "stack" = some (FVal.strV stack)
      ∧ getField c.fields "panic" = some (FVal.strV pv)
      ∧ stack ≠ ""
      ∧ (RequestLoggerWithConfig config baseCtx req h stack elapsedNs).propagated
          = false
      ∧ ((handlerWriter baseCtx req h).status = none →
          (RequestLoggerWithConfig config baseCtx req h stack
              elapsedNs).writer.status = some 500) := by
  refine ⟨completedLineOf baseCtx req h stack elapsedNs,
    completedLines_RequestLogger config baseCtx req h stack elapsedNs,
    ?_, ?_, ?_, hs,
    RequestLogger_propagated config baseCtx req h stack elapsedNs, ?_⟩
  · unfold completedLineOf
    rw [hp]
  · unfold completedLineOf
    rw [hp]
    rfl
  · unfold completedLineOf
    rw [hp]
    rfl
  · intro hw
    simp only [RequestLogger_writer, hp]
    simp [httpError, wwWrite, wwWriteHeader, hw]

/-- C2 amended, witness at a concrete panicking request. -/
theorem c2_amended_witness :
    ∃ c : LogLine,
      completedLines (RequestLoggerWithConfig ⟨true⟩ [] req0 hOnlyPanic
          "stacktext" 0).trace = [c]
      ∧ c.level = errorLevel
      ∧ getField c.fields "stack" = some (FVal.strV "stacktext")
      ∧ getField c.fields "panic" = some (FVal.strV "boom")
      ∧ ("stacktext" : String) ≠ ""
      ∧ (RequestLoggerWithConfig ⟨true⟩ [] req0 hOnlyPanic "stacktext"
          0).propagated = false
      ∧ ((handlerWriter [] req0 hOnlyPanic).status = none →
          (RequestLoggerWithConfig ⟨true⟩ [] req0 hOnlyPanic "stacktext"
              0).writer.status = some 500) :=
  c2_amended ⟨true⟩ [] req0 hOnlyPanic "stacktext" 0 "boom" rfl (by decide)

/-- C3: for every request the trace is exactly the started-line events
(one line when configured, none otherwise), then the downstream mutation
events, then the single completion line: the started line precedes every
downstream field mutation, and the completion line is emitted exactly
once, after the handler has returned, whether or not it panicked. -/
theorem c3_ordering (config : RequestLoggerConfig) (baseCtx : Context)
    (req : Request) (h : Handler) (stack : String) (elapsedNs : Nat) :
    ∃ c : LogLine,
      (RequestLoggerWithConfig config baseCtx req h stack elapsedNs).trace
        = startedEvents config req ++ mutationEvents h.actions
          ++ [Event.line c]
      ∧ c.msg = "completed"
      ∧ msgCount (RequestLoggerWithConfig config baseCtx req h stack
            elapsedNs).trace "request started"
          = (if config.WriteRequestStartedLine then 1 else 0)
      ∧ msgCount (RequestLoggerWithConfig config baseCtx req h stack
            elapsedNs).trace "completed" = 1 :=
  ⟨completedLineOf baseCtx req h stack elapsedNs,
    RequestLogger_trace config baseCtx req h stack elapsedNs,
    completedLineOf_msg baseCtx req h stack elapsedNs,
    msgCount_RequestLogger_started config baseCtx req h stack elapsedNs,
    msgCount_RequestLogger_completed config baseCtx req h stack elapsedNs⟩

/-- C4: the claim fails on the code. With the fallback logger and an entry
installed by WithLogEntry, Log returns the fallback, not the entry's
logger, because it reads the chi middleware package's key; with an entry
installed but no fallback it panics outright. The fallback-only and
neither-present conjuncts behave as claimed. -/
theorem c4_resolve_fallback :
    Log (WithLogEntry (WithLoggerContext [])) = some Resolved.fromBase
    ∧ Log (WithLogEntry []) = none
    ∧ Log (WithLoggerContext []) = some Resolved.fromBase
    ∧ Log [] = none :=
  ⟨rfl, rfl, rfl, rfl⟩

/-- C5 counterexample: the handler writes a 200 response with five body
bytes and then panics; the middleware still performs the generic error
write on the wrapped sink - the byte count grows from 5 to 27 - even
though a response had already been written, refuting the only-if guard the
claim describes. -/
theorem c5_counterexample :
    handlerWriter [] req0 h5 = { status := some 200, bytesWritten := 5 }
    ∧ (RequestLoggerWithConfig ⟨true⟩ [] req0 h5 "stacktext" 0).writer
        = { status := some 200, bytesWritten := 27 } :=
  ⟨rfl, rfl⟩

/-- C5 amended: on panic the middleware unconditionally performs the
generic 500 error write on the wrapped sink; since the sink records only
the first status, the status becomes 500 exactly when the handler had not
written one (never double-writing a status), while the error body bytes
are appended regardless. -/
theorem c5_amended (config : RequestLoggerConfig) (baseCtx : Context)
    (req : Request) (h : Handler) (stack : String) (elapsedNs : Nat)
    (pv : String) (hp : h.panics = some pv) :
    (RequestLoggerWithConfig config baseCtx req h stack
        elapsedNs).writer.status
      = some ((handlerWriter baseCtx req h).status.getD 500)
    ∧ (RequestLoggerWithConfig config baseCtx req h stack
        elapsedNs).writer.bytesWritten
      = (handlerWriter baseCtx req h).bytesWritten
        + (statusText500.length + 1) := by
  simp only [RequestLogger_writer, hp]
  constructor
  · cases hst : (handlerWriter baseCtx req h).status <;>
      simp [httpError, wwWrite, wwWriteHeader, hst]
  · cases hst : (handlerWriter baseCtx req h).status <;>
      simp [httpError, wwWrite, wwWriteHeader, hst]

/-- C5 amended, witness at a concrete panicking request. -/
theorem c5_amended_witness :
    (RequestLoggerWithConfig ⟨true⟩ [] req0 hOnlyPanic "stacktext"
        0).writer.status
      = some ((handlerWriter [] req0 hOnlyPanic).status.getD 500)
    ∧ (RequestLoggerWithConfig ⟨true⟩ [] req0 hOnlyPanic "stacktext"
        0).writer.bytesWritten
      = (handlerWriter [] req0 hOnlyPanic).bytesWritten
        + (statusText500.length + 1) :=
  c5_amended ⟨true⟩ [] req0 hOnlyPanic "stacktext" 0 "boom" rfl

/-- C6: recording a panic sets the pending level to PanicLevel - the only
escalated level the middleware ever records - and for every request the
level dispatch of the completion write selects an emit operation that does
not terminate the process (Errorln for a recorded panic, Infoln by
default), even though the sink's own panic-level and fatal-level writes
are crashing operations. -/
theorem c6_nonterminating (config : RequestLoggerConfig) (baseCtx : Context)
    (req : Request) (h : Handler) (stack : String) (elapsedNs : Nat) :
    (∀ (e : HTTPLoggerEntry) (recVal st : String),
        (e.Panic recVal st).level = some panicLevel)
    ∧ opTerminates EmitOp.panicLn = true
    ∧ opTerminates EmitOp.fatalLn = true
    ∧ ∃ op : EmitOp,
        writeDispatch (RequestLoggerWithConfig config baseCtx req h stack
            elapsedNs).entryAtWrite.level = some op
        ∧ opTerminates op = false := by
  refine ⟨fun e recVal st => rfl, rfl, rfl, ?_⟩
  rw [RequestLogger_entryAtWrite]
  rcases h with ⟨acts, pan⟩
  cases pan with
  | none =>
    refine ⟨EmitOp.infoLn, ?_, rfl⟩
    show writeDispatch (handlerRun baseCtx req ⟨acts, none⟩).1.level
        = some EmitOp.infoLn
    rw [handlerRun_level]
    rfl
  | some recVal =>
    exact ⟨EmitOp.errorLn, rfl, rfl⟩

/-- C7 counterexample: a concrete completion write merges fields named
res_code, res_bytes and res_ms; no field named status or bytes is
present, refuting the field names the claim states. -/
theorem c7_counterexample :
    (HTTPLoggerEntry.Write ⟨[], none⟩ 200 7 1500000).map
        (fun c => (getField c.fields "status", getField c.fields "bytes",
                   getField c.fields "res_code"))
      = some (none, none, some (FVal.natV 200)) :=
  rfl

/-- C7 amended: Write merges exactly the fields res_code (the observed
status code), res_bytes (the observed byte count) and res_ms (elapsed
time in fractional milliseconds) - every other key is left unchanged -
and emits the completion line through the recorded level's dispatch,
which defaults to the info write when no level was recorded. -/
theorem c7_amended (e : HTTPLoggerEntry) (status bytes elapsedNs : Nat)
    (op : EmitOp) (hd : writeDispatch e.level = some op) :
    (∃ c : LogLine,
        e.Write status bytes elapsedNs = some c
        ∧ c.level = opLevel op
        ∧ getField c.fields "res_code" = some (FVal.natV status)
        ∧ getField c.fields "res_bytes" = some (FVal.natV bytes)
        ∧ getField c.fields "res_ms"
            = some (FVal.ratV ((elapsedNs : ℚ) / 1000000))
        ∧ ∀ k : String, k ≠ "res_code" → k ≠ "res_bytes" → k ≠ "res_ms" →
            getField c.fields k = getField e.loggerFields k)
    ∧ writeDispatch none = some EmitOp.infoLn := by
  refine ⟨⟨{ level := opLevel op, msg := "completed",
             fields := writeFields e.loggerFields status bytes elapsedNs },
    ?_, rfl, rfl, rfl, rfl, ?_⟩, rfl⟩
  · unfold HTTPLoggerEntry.Write
    rw [hd]
    rfl
  · intro k h1 h2 h3
    show getField (writeFields e.loggerFields status bytes elapsedNs) k = _
    simp only [writeFields, setFields, List.foldl, setField, getField]
    rw [if_neg (Ne.symm h3), if_neg (Ne.symm h2), if_neg (Ne.symm h1)]

/-- C7 amended, witness at a concrete completion write. -/
theorem c7_amended_witness :
    (∃ c : LogLine,
        HTTPLoggerEntry.Write ⟨[], none⟩ 1 2 3 = some c
        ∧ c.level = opLevel EmitOp.infoLn
        ∧ getField c.fields "res_code" = some (FVal.natV 1)
        ∧ getField c.fields "res_bytes" = some (FVal.natV 2)
        ∧ getField c.fields "res_ms"
            = some (FVal.ratV ((3 : ℚ) / 1000000))
        ∧ ∀ k : String, k ≠ "res_code" → k ≠ "res_bytes" → k ≠ "res_ms" →
            getField c.fields k
              = getField (HTTPLoggerEntry.mk [] none).loggerFields k)
    ∧ writeDispatch none = some EmitOp.infoLn :=
  c7_amended ⟨[], none⟩ 1 2 3 EmitOp.infoLn rfl

/-- C8: the claim fails on the code. The Counter middleware increments the
shared counter atomically but then passes a separate, later read of the
shared variable to SetLogField; under the interleaving that runs both
increments before either read, two concurrent requests both observe and
attach the value 2, so the attached values are not the claimed duplicate-
free set. -/
theorem c8_duplicate_counter :
    (counterRun (counterInit 2) [0, 1, 0, 1]).attached = [some 2, some 2]
    ∧ (counterRun (counterInit 2) [0, 1, 0, 1]).pcs = [2, 2] :=
  ⟨rfl, rfl⟩

/-- C9: when the pending level holds any value other than the six
enumerated logrus levels (0 through 5), the Write dispatch falls through
the switch, which has no default branch, and no completion line is
emitted. -/
theorem c9_no_default_branch (e : HTTPLoggerEntry)
    (status bytes elapsedNs n : Nat) (hl : e.level = some n)
    (hn : 6 ≤ n) :
    e.Write status bytes elapsedNs = none := by
  unfold HTTPLoggerEntry.Write
  rw [hl]
  simp only [writeDispatch, debugLevel, infoLevel, warnLevel, errorLevel,
    fatalLevel, panicLevel]
  rw [if_neg (by omega), if_neg (by omega), if_neg (by omega),
      if_neg (by omega), if_neg (by omega), if_neg (by omega)]
  rfl

/-- C9 witness: a pending level of 6 suppresses the completion line. -/
theorem c9_witness :
    6 ≤ 6 ∧ HTTPLoggerEntry.Write ⟨[], some 6⟩ 200 0 0 = none :=
  ⟨by decide, c9_no_default_branch ⟨[], some 6⟩ 200 0 0 6 rfl (by decide)⟩

/-- C10: PrintPanics never lets a panic propagate, leaves the response
exactly as the handler's own actions left it (in particular it writes no
error response), and prints the panic value and the stack to stdout
exactly when the handler panicked. -/
theorem c10_print_panics (ctx : Context) (e : HTTPLoggerEntry) (w : WWriter)
    (h : Handler) (stack : String) :
    (PrintPanics ctx e w h stack).propagated = false
    ∧ (PrintPanics ctx e w h stack).writer
        = (execActions ctx e w h.actions).2.1
    ∧ (PrintPanics ctx e w h stack).stdout
        = match h.panics with
          | some recVal => ["\nPANIC: " ++ recVal ++ "\n", stack ++ "\n"]
          | none => [] := by
  rcases h with ⟨acts, pan⟩
  cases pan <;> exact ⟨rfl, rfl, rfl⟩

end Lg
